import Mathlib

/-!
Shallow embedding of the comparison service of the sport-insights-ai
repository: the supabase edge function `compare-players` that is appended to
`src/pages/Index.tsx` (its `linearRegression`, `generateInsights` and the
`serve` request handler), together with the id-set store lookup the handler
performs.

Modelling conventions:
* JavaScript numbers are modelled as exact rationals (`ℚ`); the player stat
  columns are the non-negative integers of the data model (`INTEGER DEFAULT 0`
  in the players migration), so they are `ℕ` here and are cast to `ℚ` where
  the code does arithmetic on them.  The numeric literals `1.2`, `1.15` and
  `0.5` of the source are the exact rationals `6/5`, `23/20` and `1/2`.
* A JavaScript division whose divisor is `0` yields a non-finite value
  (`NaN` or `Infinity`); inside `linearRegression` that outcome is modelled
  by `Option.none`, every finite result by `Option.some`.
* The handler's HTTP responses are modelled by `HttpResponse`: a success
  carries the assembled JSON body, a failure carries the status code and the
  single `error` string of the error envelope.  The CORS pre-flight branch
  (`req.method === 'OPTIONS'`) is presentation plumbing and is not modelled.
-/

namespace SportInsights

/-- Player record: the row shape of the `players` table consumed by the edge
function (`id` is the table's primary key; the six counters are non-negative
integers defaulting to 0). -/
structure PlayerStats where
  id : String
  name : String
  sport : String
  «matches» : ℕ
  score : ℕ
  assists : ℕ
  rebounds : ℕ
  wins : ℕ
  deriving DecidableEq, Repr

/-- Translation of `linearRegression(values)` (source lines 431-443): the
ordinary-least-squares slope of `values` against the 0-based index sequence.
The JavaScript computes `(n*sumXY - sumX*sumY) / (n*sumX2 - sumX*sumX)` with
no guard on the divisor; when that divisor is `0` (exactly the one-element
case) the division is `0/0 = NaN`, modelled here by `none`. -/
def linearRegression (values : List ℚ) : Option ℚ :=
  let n := values.length
  if n = 0 then some 0 else
  let x : List ℚ := (List.range n).map (fun i => (i : ℚ))
  let sumX : ℚ := x.foldl (fun a b => a + b) 0
  let sumY : ℚ := values.foldl (fun a b => a + b) 0
  let sumXY : ℚ := (x.zip values).foldl (fun a p => a + p.1 * p.2) 0
  let sumX2 : ℚ := x.foldl (fun a b => a + b * b) 0
  let denom : ℚ := (n : ℚ) * sumX2 - sumX * sumX
  if denom = 0 then none
  else some (((n : ℚ) * sumXY - sumX * sumY) / denom)

/-- Rendering of JavaScript `q.toFixed(1)` for the non-negative rationals this
service formats: the integer `m` minimising the distance of `m / 10` to `q`
(ties pick the larger `m`), printed with one digit after the point. -/
def toFixed1 (q : ℚ) : String :=
  let m : ℤ := ⌊q * 10 + 1 / 2⌋
  let whole := m / 10
  let tenth := m % 10
  s!"{whole}.{tenth}"

/-- Total stats of a player: `score + assists + rebounds` (the `p1Total` and
`p2Total` of source lines 450-451). -/
def totalStats (p : PlayerStats) : ℕ :=
  p.score + p.assists + p.rebounds

/-- Template of the leader sentence of the overall-performance block
(source lines 454 and 456). -/
def overallLeadSentence (nm : String) (hi lo : ℕ) : String :=
  s!"{nm} demonstrates significantly higher overall performance with {hi} total stats vs {lo}."

/-- Fixed sentence of the fall-through branch of the overall-performance block
(source line 458). -/
def comparableSentence : String :=
  "Both players show comparable overall performance levels."

/-- Template of the consistency sentence (source lines 466 and 468). -/
def consistencySentence (nm : String) (hi lo : ℚ) : String :=
  let hs := toFixed1 hi
  let ls := toFixed1 lo
  s!"{nm} shows better consistency with {hs} stats per match vs {ls}."

/-- Template of the win-rate sentence (source lines 476 and 478). -/
def winRateSentence (nm : String) (hi lo : ℚ) : String :=
  let hs := toFixed1 hi
  let ls := toFixed1 lo
  s!"{nm} has a superior win rate of {hs}% compared to {ls}%."

/-- Template of the improving-trend sentence (source lines 489 and 495). -/
def improvingSentence (nm : String) : String :=
  s!"{nm} shows an improving performance trend across different metrics."

/-- Template of the declining-trend sentence (source lines 491 and 497). -/
def decliningSentence (nm : String) : String :=
  s!"{nm} shows a declining trend in certain performance areas."

/-- Template of the scorer specialization sentence (source lines 502 and 508). -/
def scorerSentence (nm : String) (sc : ℕ) : String :=
  s!"{nm} is primarily a scorer with {sc} points."

/-- Template of the playmaker specialization sentence (source lines 504 and
510). -/
def playmakerSentence (nm : String) (a : ℕ) : String :=
  s!"{nm} excels in playmaking with {a} assists."

/-- Overall-performance block of `generateInsights` (source lines 449-459):
pushes the leader sentence when one total strictly exceeds `1.2` times the
other, the comparable sentence otherwise. -/
def overallInsights (player1 player2 : PlayerStats) : List String :=
  let p1Total := totalStats player1
  let p2Total := totalStats player2
  if (p1Total : ℚ) > (p2Total : ℚ) * 1.2 then
    [overallLeadSentence player1.name p1Total p2Total]
  else if (p2Total : ℚ) > (p1Total : ℚ) * 1.2 then
    [overallLeadSentence player2.name p2Total p1Total]
  else
    [comparableSentence]

/-- Per-player consistency ratio (source lines 462-463): total stats per
match, `0` when `matches = 0`. -/
def consistencyOf (p : PlayerStats) : ℚ :=
  if 0 < p.«matches» then (totalStats p : ℚ) / (p.«matches» : ℚ) else 0

/-- Consistency block of `generateInsights` (source lines 461-469): pushes a
sentence when one ratio strictly exceeds `1.15` times the other, nothing
otherwise. -/
def consistencyInsights (player1 player2 : PlayerStats) : List String :=
  let c1 := consistencyOf player1
  let c2 := consistencyOf player2
  if c1 > c2 * 1.15 then
    [consistencySentence player1.name c1 c2]
  else if c2 > c1 * 1.15 then
    [consistencySentence player2.name c2 c1]
  else
    []

/-- Per-player win rate (source lines 472-473): `(wins / matches) * 100`,
`0` when `matches = 0`. -/
def winRateOf (p : PlayerStats) : ℚ :=
  if 0 < p.«matches» then ((p.wins : ℚ) / (p.«matches» : ℚ)) * 100 else 0

/-- Win-rate block of `generateInsights` (source lines 471-479): pushes a
sentence naming the strictly-higher-rate player, nothing when the rates are
equal. -/
def winRateInsights (player1 player2 : PlayerStats) : List String :=
  let r1 := winRateOf player1
  let r2 := winRateOf player2
  if r1 > r2 then
    [winRateSentence player1.name r1 r2]
  else if r2 > r1 then
    [winRateSentence player2.name r2 r1]
  else
    []

/-- Slope used for a player's trend: `linearRegression` on the 3-element
sequence `[score, assists, rebounds]` (source lines 482-486 and 567-568).
A 3-element call always has divisor `6 ≠ 0`, hence always yields `some`;
`getD 0` extracts that value. -/
def playerTrend (p : PlayerStats) : ℚ :=
  (linearRegression [(p.score : ℚ), (p.assists : ℚ), (p.rebounds : ℚ)]).getD 0

/-- Per-player trend block of `generateInsights` (source lines 488-498):
pushes the improving sentence when the slope exceeds `0.5`, the declining
sentence when it is below `-0.5`, nothing otherwise. -/
def trendInsights (p : PlayerStats) : List String :=
  let t := playerTrend p
  if t > 0.5 then
    [improvingSentence p.name]
  else if t < -(0.5 : ℚ) then
    [decliningSentence p.name]
  else
    []

/-- Per-player specialization block of `generateInsights` (source lines
500-511): scorer sentence when `score` strictly exceeds both other stats,
else playmaker sentence when `assists` strictly exceeds both other stats,
else nothing. -/
def specializationInsights (p : PlayerStats) : List String :=
  if p.score > p.assists ∧ p.score > p.rebounds then
    [scorerSentence p.name p.score]
  else if p.assists > p.score ∧ p.assists > p.rebounds then
    [playmakerSentence p.name p.assists]
  else
    []

/-- Translation of `generateInsights(player1, player2)` (source lines
446-514): the sentences pushed into the `insights` array, in push order —
overall performance, consistency, win rate, player 1 trend, player 2 trend,
player 1 specialization, player 2 specialization. -/
def generateInsights (player1 player2 : PlayerStats) : List String :=
  overallInsights player1 player2 ++
    consistencyInsights player1 player2 ++
    winRateInsights player1 player2 ++
    trendInsights player1 ++
    trendInsights player2 ++
    specializationInsights player1 ++
    specializationInsights player2

/-- Public fields of a player copied into the `comparison` part of the
success payload (source lines 547-564). -/
structure PlayerPublic where
  name : String
  «matches» : ℕ
  score : ℕ
  assists : ℕ
  rebounds : ℕ
  wins : ℕ
  deriving DecidableEq, Repr

/-- Projection of a stored record to its public comparison fields. -/
def publicOf (p : PlayerStats) : PlayerPublic :=
  { name := p.name
    «matches» := p.«matches»
    score := p.score
    assists := p.assists
    rebounds := p.rebounds
    wins := p.wins }

/-- Per-player entry of the `trends` part of the success payload. -/
structure TrendInfo where
  slope : ℚ
  direction : String
  deriving DecidableEq, Repr

/-- Direction label of the top-level trend summary (source lines 579 and
583): the strict sign of the slope, with ties mapped to stable. -/
def trendDirection (t : ℚ) : String :=
  if t > 0 then "Improving performance"
  else if t < 0 then "Declining performance"
  else "Stable performance"

/-- Body of a 200 response of the handler. -/
structure CompareSuccess where
  comparison1 : PlayerPublic
  comparison2 : PlayerPublic
  trend1 : TrendInfo
  trend2 : TrendInfo
  insights : List String
  deriving DecidableEq, Repr

/-- Success payload assembled by the handler (source lines 546-587). -/
def compareBody (player1 player2 : PlayerStats) : CompareSuccess :=
  { comparison1 := publicOf player1
    comparison2 := publicOf player2
    trend1 := { slope := playerTrend player1
                direction := trendDirection (playerTrend player1) }
    trend2 := { slope := playerTrend player2
                direction := trendDirection (playerTrend player2) }
    insights := generateInsights player1 player2 }

/-- Outcome of the supabase id-set query as seen by the handler: either the
row list or a query error. -/
inductive StoreResult where
  | ok (players : List PlayerStats)
  | err (message : String)
  deriving DecidableEq, Repr

/-- Response of the handler: a 200 success body, or the `{error: string}`
envelope with its status code.  A failure carries nothing but the one error
string — no comparison, trends or insights fields exist on that branch. -/
inductive HttpResponse where
  | success (body : CompareSuccess)
  | failure (status : ℕ) (error : String)
  deriving DecidableEq, Repr

/-- Falsiness of a request identifier as tested by `!player1Id` (source line
528): absent from the JSON, or the empty string. -/
def idMissing : Option String → Bool
  | none => true
  | some s => s == ""

/-- Translation of the `serve` handler body after JSON parsing (source lines
526-601), parametrised by the outcome of the store query.  Every `throw` is
caught by the surrounding try/catch and becomes the status-500 envelope
`{error: message}`.  The two non-null `find` assertions cannot fail when the
query honours the id-set filter; were a find to miss, the JavaScript would
throw a TypeError on the subsequent property access, likewise caught into a
500 envelope, which the final match arm reproduces. -/
def serveCompare (player1Id player2Id : Option String) (stored : StoreResult) :
    HttpResponse :=
  if idMissing player1Id || idMissing player2Id then
    HttpResponse.failure 500 "Both player IDs are required"
  else
    match stored with
    | StoreResult.err msg => HttpResponse.failure 500 msg
    | StoreResult.ok players =>
      if players.length ≠ 2 then
        HttpResponse.failure 500 "Could not find both players"
      else
        match players.find? (fun p => p.id == player1Id.getD ""),
            players.find? (fun p => p.id == player2Id.getD "") with
        | some player1, some player2 => HttpResponse.success (compareBody player1 player2)
        | _, _ => HttpResponse.failure 500 "Cannot read properties of undefined"

/-- The store query `select('*').in('id', [player1Id, player2Id])` (source
lines 533-536) against a store modelled as a row list: the rows whose `id`
is one of the two requested identifiers. -/
def lookupByIds (store : List PlayerStats) (id1 id2 : String) : List PlayerStats :=
  store.filter (fun p => p.id == id1 || p.id == id2)

/-- The handler run end to end against a store that answers the id-set query
without a connectivity error. -/
def serveRequest (store : List PlayerStats) (player1Id player2Id : Option String) :
    HttpResponse :=
  serveCompare player1Id player2Id
    (StoreResult.ok (lookupByIds store (player1Id.getD "") (player2Id.getD "")))

/-! ## Helper lemmas -/

/-- Closed form of the three-point slope: for `[a, b, c]` the regression
returns `(c - a) / 2`. -/
theorem linearRegression_three (a b c : ℚ) :
    linearRegression [a, b, c] = some ((c - a) / 2) := by
  norm_num [linearRegression, List.range, List.range.loop, List.zip, List.zipWith, List.foldl]
  ring_nf

/-- The trend slope of a player is half the difference between rebounds and
score. -/
theorem playerTrend_eq (p : PlayerStats) :
    playerTrend p = ((p.rebounds : ℚ) - (p.score : ℚ)) / 2 := by
  rw [playerTrend, linearRegression_three]
  rfl

/-- The overall-performance block always emits exactly one sentence. -/
theorem overallInsights_length (p1 p2 : PlayerStats) :
    (overallInsights p1 p2).length = 1 := by
  simp only [overallInsights]
  split_ifs <;> rfl

/-- The consistency block emits at most one sentence. -/
theorem consistencyInsights_length_le (p1 p2 : PlayerStats) :
    (consistencyInsights p1 p2).length ≤ 1 := by
  simp only [consistencyInsights]
  split_ifs <;> simp

/-- The win-rate block emits at most one sentence. -/
theorem winRateInsights_length_le (p1 p2 : PlayerStats) :
    (winRateInsights p1 p2).length ≤ 1 := by
  simp only [winRateInsights]
  split_ifs <;> simp

/-- The per-player trend block emits at most one sentence. -/
theorem trendInsights_length_le (p : PlayerStats) :
    (trendInsights p).length ≤ 1 := by
  simp only [trendInsights]
  split_ifs <;> simp

/-- The per-player specialization block emits at most one sentence. -/
theorem specializationInsights_length_le (p : PlayerStats) :
    (specializationInsights p).length ≤ 1 := by
  simp only [specializationInsights]
  split_ifs <;> simp

/-! ## Claim theorems -/

/-- C1: for every 3-element sequence `[a, b, c]`, `linearRegression` returns
the ordinary-least-squares slope against the index sequence `x = [0, 1, 2]`,
i.e. the value of `(N·Σ(x·y) − Σx·Σy) / (N·Σ(x²) − (Σx)²)` with `N = 3`,
which equals `(c − a) / 2`; in particular `linearRegression [1, 3, 5] = 2`. -/
theorem linearRegression_three_point_ols (a b c : ℚ) :
    linearRegression [a, b, c] =
      some ((3 * (0 * a + 1 * b + 2 * c) - (0 + 1 + 2) * (a + b + c)) /
        (3 * (0 * 0 + 1 * 1 + 2 * 2) - (0 + 1 + 2) * (0 + 1 + 2))) ∧
    linearRegression [a, b, c] = some ((c - a) / 2) ∧
    linearRegression [1, 3, 5] = some 2 := by
  refine ⟨?_, linearRegression_three a b c, ?_⟩
  · norm_num [linearRegression, List.range, List.range.loop, List.zip, List.zipWith, List.foldl]
  · norm_num [linearRegression, List.range, List.range.loop, List.zip, List.zipWith, List.foldl]

/-- C2 (code bug): the empty-sequence fallback does return `0`, but for every
one-element sequence — exactly the inputs on which the slope divisor
`N·Σ(x²) − (Σx)²` is `0` — the code divides zero by zero and produces the
non-finite JavaScript value `NaN` (modelled by `none`) instead of the `0` the
specification prescribes for a zero denominator. -/
theorem linearRegression_singleton_nonfinite (v : ℚ) :
    linearRegression [] = some 0 ∧ linearRegression [v] = none := by
  constructor
  · rfl
  · norm_num [linearRegression, List.range, List.range.loop, List.zip, List.zipWith, List.foldl]

/-- C7: the insight sequence is exactly the concatenation of the five
generation steps in their fixed order — overall performance, consistency,
win rate, trend, specialization — with player 1's sentence preceding
player 2's inside the two per-player steps, and its length never exceeds 8. -/
theorem insights_order_and_length (p1 p2 : PlayerStats) :
    generateInsights p1 p2 =
      overallInsights p1 p2 ++ consistencyInsights p1 p2 ++ winRateInsights p1 p2 ++
        (trendInsights p1 ++ trendInsights p2) ++
        (specializationInsights p1 ++ specializationInsights p2) ∧
    (generateInsights p1 p2).length ≤ 8 := by
  constructor
  · simp [generateInsights, List.append_assoc]
  · have h1 := overallInsights_length p1 p2
    have h2 := consistencyInsights_length_le p1 p2
    have h3 := winRateInsights_length_le p1 p2
    have h4 := trendInsights_length_le p1
    have h5 := trendInsights_length_le p2
    have h6 := specializationInsights_length_le p1
    have h7 := specializationInsights_length_le p2
    simp only [generateInsights, List.length_append]
    omega

/-- C8: the specialization block emits the scorer sentence exactly when
`score` strictly exceeds both other stats, otherwise the playmaker sentence
exactly when `assists` strictly exceeds both other stats, and otherwise
nothing; in particular a sole-maximum `rebounds`, or a maximum attained by a
tie, produces no sentence. -/
theorem specialization_insight (p : PlayerStats) :
    (p.score > p.assists ∧ p.score > p.rebounds →
      specializationInsights p = [scorerSentence p.name p.score]) ∧
    (¬(p.score > p.assists ∧ p.score > p.rebounds) →
      (p.assists > p.score ∧ p.assists > p.rebounds) →
      specializationInsights p = [playmakerSentence p.name p.assists]) ∧
    (¬(p.score > p.assists ∧ p.score > p.rebounds) →
      ¬(p.assists > p.score ∧ p.assists > p.rebounds) →
      specializationInsights p = []) ∧
    (p.rebounds > p.score ∧ p.rebounds > p.assists → specializationInsights p = []) ∧
    ((p.score = p.assists ∧ p.rebounds ≤ p.score) ∨
        (p.score = p.rebounds ∧ p.assists ≤ p.score) ∨
        (p.assists = p.rebounds ∧ p.score ≤ p.assists) →
      specializationInsights p = []) := by
  unfold specializationInsights
  refine ⟨fun h => by rw [if_pos h], fun h1 h2 => by rw [if_neg h1, if_pos h2],
    fun h1 h2 => by rw [if_neg h1, if_neg h2], fun h => ?_, fun h => ?_⟩
  · rw [if_neg (by omega), if_neg (by omega)]
  · rcases h with h | h | h <;> rw [if_neg (by omega), if_neg (by omega)]

/-- C9: `generateInsights` always returns between 1 and 7 sentences — the
overall-performance step contributes exactly one, consistency and win rate at
most one each, trend and specialization at most two each — so neither the
empty sequence nor length 8 is ever produced. -/
theorem generateInsights_length_bounds (p1 p2 : PlayerStats) :
    (overallInsights p1 p2).length = 1 ∧
    (consistencyInsights p1 p2).length ≤ 1 ∧
    (winRateInsights p1 p2).length ≤ 1 ∧
    (trendInsights p1).length + (trendInsights p2).length ≤ 2 ∧
    (specializationInsights p1).length + (specializationInsights p2).length ≤ 2 ∧
    1 ≤ (generateInsights p1 p2).length ∧ (generateInsights p1 p2).length ≤ 7 := by
  have h1 := overallInsights_length p1 p2
  have h2 := consistencyInsights_length_le p1 p2
  have h3 := winRateInsights_length_le p1 p2
  have h4 := trendInsights_length_le p1
  have h5 := trendInsights_length_le p2
  have h6 := specializationInsights_length_le p1
  have h7 := specializationInsights_length_le p2
  have hlen : (generateInsights p1 p2).length =
      (overallInsights p1 p2).length + (consistencyInsights p1 p2).length +
        (winRateInsights p1 p2).length + (trendInsights p1).length +
        (trendInsights p2).length + (specializationInsights p1).length +
        (specializationInsights p2).length := by
    simp [generateInsights]
    omega
  refine ⟨h1, h2, h3, by omega, by omega, ?_, ?_⟩ <;> omega

/-- Characterization of the direction label by the strict sign of the slope. -/
theorem trendDirection_cases (t : ℚ) :
    (trendDirection t = "Improving performance" ↔ 0 < t) ∧
    (trendDirection t = "Declining performance" ↔ t < 0) ∧
    (trendDirection t = "Stable performance" ↔ t = 0) := by
  have hid : ("Improving performance" : String) ≠ "Declining performance" := by decide
  have his : ("Improving performance" : String) ≠ "Stable performance" := by decide
  have hds : ("Declining performance" : String) ≠ "Stable performance" := by decide
  unfold trendDirection
  split_ifs with h1 h2
  · refine ⟨⟨fun _ => h1, fun _ => rfl⟩, ⟨fun h => absurd h hid, fun h => absurd h1 h.asymm⟩,
      ⟨fun h => absurd h his, fun h => absurd h1 (by rw [h]; exact lt_irrefl 0)⟩⟩
  · refine ⟨⟨fun h => absurd h hid.symm, fun h => absurd h h1⟩,
      ⟨fun _ => h2, fun _ => rfl⟩,
      ⟨fun h => absurd h hds, fun h => absurd h2 (by rw [h]; exact lt_irrefl 0)⟩⟩
  · have h0 : t = 0 := le_antisymm (not_lt.mp h1) (not_lt.mp h2)
    refine ⟨⟨fun h => absurd h his.symm, fun h => absurd h0.symm h.ne⟩,
      ⟨fun h => absurd h hds.symm, fun h => absurd h0 h.ne⟩, ⟨fun _ => h0, fun _ => rfl⟩⟩

/-- The per-player trend block is silent exactly when the slope lies in the
closed band `[-0.5, 0.5]`. -/
theorem trendInsights_eq_nil_iff (p : PlayerStats) :
    trendInsights p = [] ↔ -(0.5 : ℚ) ≤ playerTrend p ∧ playerTrend p ≤ 0.5 := by
  simp only [trendInsights]
  split_ifs with h1 h2
  · exact ⟨fun h => absurd h (by simp), fun h => absurd h1 (not_lt.mpr h.2)⟩
  · exact ⟨fun h => absurd h (by simp), fun h => absurd h2 (not_lt.mpr h.1)⟩
  · exact ⟨fun _ => ⟨not_lt.mp h2, not_lt.mp h1⟩, fun _ => rfl⟩

/-- C4: the overall-performance step always appends exactly one sentence — a
leader-naming sentence with both totals exactly when one total strictly
exceeds `1.2` times the other (the two leader conditions are mutually
exclusive), and otherwise the single comparable-performance sentence; totals
`100` versus `95` fall below the threshold and yield the comparable
sentence. -/
theorem overall_performance_insight (p1 p2 : PlayerStats) :
    (overallInsights p1 p2).length = 1 ∧
    ¬((totalStats p1 : ℚ) > (totalStats p2 : ℚ) * 1.2 ∧
      (totalStats p2 : ℚ) > (totalStats p1 : ℚ) * 1.2) ∧
    ((totalStats p1 : ℚ) > (totalStats p2 : ℚ) * 1.2 →
      overallInsights p1 p2 = [overallLeadSentence p1.name (totalStats p1) (totalStats p2)]) ∧
    ((totalStats p2 : ℚ) > (totalStats p1 : ℚ) * 1.2 →
      overallInsights p1 p2 = [overallLeadSentence p2.name (totalStats p2) (totalStats p1)]) ∧
    (¬(totalStats p1 : ℚ) > (totalStats p2 : ℚ) * 1.2 ∧
        ¬(totalStats p2 : ℚ) > (totalStats p1 : ℚ) * 1.2 →
      overallInsights p1 p2 = [comparableSentence]) ∧
    overallInsights ⟨"1", "Player One", "Basketball", 0, 100, 0, 0, 0⟩
        ⟨"2", "Player Two", "Basketball", 0, 95, 0, 0, 0⟩ = [comparableSentence] := by
  have hexcl : ¬((totalStats p1 : ℚ) > (totalStats p2 : ℚ) * 1.2 ∧
      (totalStats p2 : ℚ) > (totalStats p1 : ℚ) * 1.2) := by
    rintro ⟨ha, hb⟩
    have h1 : (0 : ℚ) ≤ (totalStats p1 : ℚ) := Nat.cast_nonneg _
    nlinarith
  refine ⟨overallInsights_length p1 p2, hexcl, fun h => ?_, fun h => ?_, fun h => ?_, ?_⟩
  · simp only [overallInsights]
    rw [if_pos h]
  · simp only [overallInsights]
    rw [if_neg (fun ha => hexcl ⟨ha, h⟩), if_pos h]
  · simp only [overallInsights]
    rw [if_neg h.1, if_neg h.2]
  · norm_num [overallInsights, totalStats]

/-- C5: the top-level direction label of each player is the strict-sign
classification of the same slope the step-4 insight sentences test against
the `±0.5` band; identical score, assists and rebounds give slope `0`, the
stable label, and no step-4 sentence. -/
theorem trend_direction_classification (p1 p2 : PlayerStats) :
    ((compareBody p1 p2).trend1.slope = playerTrend p1 ∧
      (compareBody p1 p2).trend2.slope = playerTrend p2) ∧
    ((compareBody p1 p2).trend1.direction = "Improving performance" ↔ 0 < playerTrend p1) ∧
    ((compareBody p1 p2).trend1.direction = "Declining performance" ↔ playerTrend p1 < 0) ∧
    ((compareBody p1 p2).trend1.direction = "Stable performance" ↔ playerTrend p1 = 0) ∧
    ((compareBody p1 p2).trend2.direction = "Improving performance" ↔ 0 < playerTrend p2) ∧
    ((compareBody p1 p2).trend2.direction = "Declining performance" ↔ playerTrend p2 < 0) ∧
    ((compareBody p1 p2).trend2.direction = "Stable performance" ↔ playerTrend p2 = 0) ∧
    (trendInsights p1 = [] ↔ -(0.5 : ℚ) ≤ playerTrend p1 ∧ playerTrend p1 ≤ 0.5) ∧
    (p1.score = p1.assists → p1.assists = p1.rebounds →
      playerTrend p1 = 0 ∧ (compareBody p1 p2).trend1.direction = "Stable performance" ∧
        trendInsights p1 = []) := by
  have hc1 := trendDirection_cases (playerTrend p1)
  have hc2 := trendDirection_cases (playerTrend p2)
  have hb1 : (compareBody p1 p2).trend1.direction = trendDirection (playerTrend p1) := rfl
  have hb2 : (compareBody p1 p2).trend2.direction = trendDirection (playerTrend p2) := rfl
  rw [hb1, hb2]
  refine ⟨⟨rfl, rfl⟩, hc1.1, hc1.2.1, hc1.2.2, hc2.1, hc2.2.1, hc2.2.2,
    trendInsights_eq_nil_iff p1, fun hsa har => ?_⟩
  have h0 : playerTrend p1 = 0 := by
    rw [playerTrend_eq, hsa, har]
    ring
  refine ⟨h0, hc1.2.2.mpr h0, (trendInsights_eq_nil_iff p1).mpr ?_⟩
  rw [h0]
  norm_num

/-- C6: the win rate is `100·wins/matches` for a player with matches and `0`
otherwise, and the win-rate step appends exactly the one sentence naming the
strictly-higher-rate player with both rates to one decimal place when the
rates differ, and nothing when they are equal; the `8/10` versus `4/10`
fixture names player 1 with `80.0%` versus `40.0%`. -/
theorem win_rate_insight (p1 p2 : PlayerStats) :
    (winRateOf p1 =
      if 0 < p1.«matches» then 100 * (p1.wins : ℚ) / (p1.«matches» : ℚ) else 0) ∧
    (winRateOf p2 =
      if 0 < p2.«matches» then 100 * (p2.wins : ℚ) / (p2.«matches» : ℚ) else 0) ∧
    (winRateOf p1 > winRateOf p2 →
      winRateInsights p1 p2 = [winRateSentence p1.name (winRateOf p1) (winRateOf p2)]) ∧
    (winRateOf p2 > winRateOf p1 →
      winRateInsights p1 p2 = [winRateSentence p2.name (winRateOf p2) (winRateOf p1)]) ∧
    (winRateOf p1 = winRateOf p2 → winRateInsights p1 p2 = []) ∧
    winRateInsights ⟨"1", "Player One", "Basketball", 10, 0, 0, 0, 8⟩
        ⟨"2", "Player Two", "Basketball", 10, 0, 0, 0, 4⟩ =
      ["Player One has a superior win rate of 80.0% compared to 40.0%."] := by
  have hrate : ∀ p : PlayerStats, winRateOf p =
      if 0 < p.«matches» then 100 * (p.wins : ℚ) / (p.«matches» : ℚ) else 0 := by
    intro p
    unfold winRateOf
    split_ifs
    · ring
    · rfl
  refine ⟨hrate p1, hrate p2, fun h => ?_, fun h => ?_, fun h => ?_, ?_⟩
  · simp only [winRateInsights]
    rw [if_pos h]
  · simp only [winRateInsights]
    rw [if_neg (lt_asymm h), if_pos h]
  · simp only [winRateInsights]
    rw [if_neg (by rw [h]; exact lt_irrefl _), if_neg (by rw [h]; exact lt_irrefl _)]
  · norm_num [winRateInsights, winRateOf, winRateSentence, toFixed1]
    rfl

/-- With pairwise-distinct ids (the primary-key invariant of the players
table), at most one stored row matches any single identifier. -/
theorem length_filter_id_le_one (store : List PlayerStats) (s : String)
    (hkey : (store.map PlayerStats.id).Nodup) :
    (store.filter (fun p => p.id == s)).length ≤ 1 := by
  induction store with
  | nil => simp
  | cons p t ih =>
    rw [List.map_cons, List.nodup_cons] at hkey
    rw [List.filter_cons]
    by_cases hp : p.id = s
    · rw [if_pos (by simp [hp])]
      have ht : t.filter (fun q => q.id == s) = [] := by
        rw [List.filter_eq_nil_iff]
        intro q hq hqs
        have hqe : q.id = s := by simpa using hqs
        exact hkey.1 (by rw [hp, ← hqe]; exact List.mem_map_of_mem PlayerStats.id hq)
      simp [ht]
    · rw [if_neg (by simp [hp])]
      exact ih hkey.2

/-- C3: whenever an identifier is missing or empty, the store signals a query
error, or the lookup answer does not hold exactly two records, the handler
returns a status-500 response that is the bare `{error: string}` envelope —
the `failure` constructor carries no comparison, trends or insights data, so
no partial result can be returned. -/
theorem serve_error_envelope (player1Id player2Id : Option String) (stored : StoreResult)
    (h : idMissing player1Id = true ∨ idMissing player2Id = true ∨
      (∃ m, stored = StoreResult.err m) ∨
      ∃ ps, stored = StoreResult.ok ps ∧ ps.length ≠ 2) :
    ∃ msg, serveCompare player1Id player2Id stored = HttpResponse.failure 500 msg := by
  by_cases hmiss : (idMissing player1Id || idMissing player2Id) = true
  · exact ⟨"Both player IDs are required", by simp only [serveCompare, hmiss, if_true]⟩
  · rcases h with h1 | h1 | ⟨m, rfl⟩ | ⟨ps, rfl, hlen⟩
    · exact absurd (by simp [h1]) hmiss
    · exact absurd (by simp [h1]) hmiss
    · exact ⟨m, by simp only [serveCompare, hmiss, if_false, Bool.false_eq_true]⟩
    · exact ⟨"Could not find both players", by
        simp only [serveCompare, hmiss, if_false, Bool.false_eq_true]
        rw [if_pos hlen]⟩

/-- Witness for the error-envelope theorem: a request with the first
identifier absent and an empty lookup answer receives the failure envelope. -/
theorem serve_error_envelope_witness :
    ∃ msg, serveCompare none (some "p2") (StoreResult.ok []) =
      HttpResponse.failure 500 msg :=
  serve_error_envelope none (some "p2") (StoreResult.ok []) (Or.inl rfl)

/-- C10: when the two supplied identifiers are equal, the id-set lookup over
a store with pairwise-distinct ids resolves at most one record — whether or
not a record with that id exists — so the exactly-two check fails and the
handler returns the 500 envelope: a player is never compared with
themselves. -/
theorem same_id_request_rejected (store : List PlayerStats) (pid : Option String)
    (hkey : (store.map PlayerStats.id).Nodup) :
    (∀ s, (lookupByIds store s s).length ≤ 1) ∧
    ∃ msg, serveRequest store pid pid = HttpResponse.failure 500 msg := by
  have hlook : ∀ s, (lookupByIds store s s).length ≤ 1 := by
    intro s
    have heq : (fun p : PlayerStats => p.id == s || p.id == s) =
        (fun p : PlayerStats => p.id == s) := by
      funext p
      exact Bool.or_self _
    rw [lookupByIds, heq]
    exact length_filter_id_le_one store s hkey
  refine ⟨hlook, ?_⟩
  unfold serveRequest
  by_cases hmiss : (idMissing pid || idMissing pid) = true
  · exact ⟨"Both player IDs are required", by simp only [serveCompare, hmiss, if_true]⟩
  · have hne : (lookupByIds store (pid.getD "") (pid.getD "")).length ≠ 2 := by
      have := hlook (pid.getD "")
      omega
    exact ⟨"Could not find both players", by
      simp only [serveCompare, hmiss, if_false, Bool.false_eq_true]
      rw [if_pos hne]⟩

/-- Witness for the same-identifier theorem: a one-row store queried with its
own id on both sides of the comparison receives the failure envelope. -/
theorem same_id_request_rejected_witness :
    (∀ s, (lookupByIds [⟨"a", "Player", "Basketball", 0, 0, 0, 0, 0⟩] s s).length ≤ 1) ∧
    ∃ msg, serveRequest [⟨"a", "Player", "Basketball", 0, 0, 0, 0, 0⟩]
        (some "a") (some "a") = HttpResponse.failure 500 msg :=
  same_id_request_rejected [⟨"a", "Player", "Basketball", 0, 0, 0, 0, 0⟩] (some "a")
    (by simp)

end SportInsights
